import Mathlib

/-!
# Verification of the three-tier login service (src/login/gocode/main.go)

A shallow embedding of the session/authentication core of the Go login
service.  HTTP responses are modelled with Go's `net/http` header-commit
semantics: the header block (status code, `Location`, `Set-Cookie` list) is
snapshotted at the first `WriteHeader` or body `Write`; mutations of the
header map after that point are not observable by the client.  The
`gorilla/securecookie` codec (external library code) is modelled abstractly
as an encode/decode pair; its documented round-trip contract is taken as a
hypothesis where needed and discharged on a concrete codec in witnesses.
The MongoDB collection handle is modelled as an optional store state: a
list of (username, password) documents plus a connection-failure flag, with
`FindOne(...).Decode` returning an error exactly on connection failure or
when no document matches the equality filter.
-/

/-- A `http.Cookie` as set by the handlers: name, value, path and
MaxAge (0 when the Go struct leaves the field unset). -/
structure Cookie where
  name : String
  value : String
  path : String
  maxAge : Int
deriving DecidableEq, Repr

/-- The mutable header block of a response writer: the `Location` header
(if set) and the accumulated `Set-Cookie` headers. -/
structure HeaderBlock where
  location : Option String
  cookies : List Cookie
deriving DecidableEq, Repr

/-- A Go `http.ResponseWriter`: the live (pending) header map, the
committed status-plus-headers snapshot once `WriteHeader` has run, and the
body written so far. -/
structure HWriter where
  pending : HeaderBlock
  sent : Option (Nat × HeaderBlock)
  body : String
deriving DecidableEq, Repr

/-- A fresh response writer, as handed to a handler by the server. -/
def emptyWriter : HWriter := ⟨⟨none, []⟩, none, ""⟩

/-- `w.Header().Set("Location", url)`: mutates the live header map. -/
def setLocation (url : String) (w : HWriter) : HWriter :=
  { w with pending := { w.pending with location := some url } }

/-- `http.SetCookie(w, c)`: adds a `Set-Cookie` header to the live map. -/
def addCookie (c : Cookie) (w : HWriter) : HWriter :=
  { w with pending := { w.pending with cookies := w.pending.cookies ++ [c] } }

/-- `w.WriteHeader(code)`: commits the status and a snapshot of the live
headers; a second call is superfluous and has no effect. -/
def writeHeader (code : Nat) (w : HWriter) : HWriter :=
  match w.sent with
  | some _ => w
  | none => { w with sent := some (code, w.pending) }

/-- `w.Write(s)` / `fmt.Fprintf(w, s)`: an implicit `WriteHeader(200)` if
the headers are not yet committed, then the bytes are appended to the
body. -/
def write (s : String) (w : HWriter) : HWriter :=
  let w2 := writeHeader 200 w
  { w2 with body := w2.body ++ s }

/-- An incoming HTTP request: method, parsed form values and cookies. -/
structure Request where
  method : String
  form : List (String × String)
  cookies : List (String × String)
deriving DecidableEq, Repr

/-- Go map / form lookup returning the zero value "" when the key is
absent (`request.FormValue(k)`, `cookieValue[k]`). -/
def mapGet (m : List (String × String)) (k : String) : String :=
  match m with
  | [] => ""
  | (k2, v) :: rest => if k2 == k then v else mapGet rest k

/-- `request.FormValue(key)`. -/
def formValue (req : Request) (key : String) : String :=
  mapGet req.form key

/-- `request.Cookie(nm)`: the first cookie with the given name, or an
error (`none`) when there is none. -/
def reqCookie (req : Request) (nm : String) : Option String :=
  (req.cookies.find? (fun c => c.1 == nm)).map (fun c => c.2)

/-- `http.Redirect(w, r, url, code)`: sets the `Location` header, commits
the status, and for GET requests appends a short HTML hyperlink body. -/
def redirect (req : Request) (url : String) (code : Nat) (w : HWriter) : HWriter :=
  let w2 := writeHeader code (setLocation url w)
  if req.method == "GET" then
    write ("<a href=\"" ++ url ++ "\">Found</a>.\n") w2
  else w2

/-- The status/headers actually transmitted to the client: the committed
snapshot, or (when the handler returned without writing anything) status
200 with the live headers, flushed by the server at handler return. -/
def finalize (w : HWriter) : Nat × HeaderBlock :=
  match w.sent with
  | some sp => sp
  | none => (200, w.pending)

/-- The HTTP status code the client observes. -/
def respStatus (w : HWriter) : Nat := (finalize w).1

/-- The `Location` header the client observes. -/
def respLocation (w : HWriter) : Option String := (finalize w).2.location

/-- The `Set-Cookie` headers the client observes. -/
def sentCookies (w : HWriter) : List Cookie := (finalize w).2.cookies

/-- The response body the client observes. -/
def respBody (w : HWriter) : String := w.body

/-- The securecookie codec (`cookieHandler`), abstract over the
per-process random keys: `Encode("session", value)` and
`Decode("session", token, &value)` on `map[string]string` values, each of
which may fail. -/
structure Codec where
  encode : List (String × String) → Option String
  decode : String → Option (List (String × String))

/-- The securecookie contract for a fixed key set: decoding a token the
same codec produced yields the encoded value back. -/
def RoundTrips (c : Codec) : Prop :=
  ∀ m s, c.encode m = some s → c.decode s = some m

/-- `getUserName(request)`: reads the `session` cookie, decodes it, and
returns the `name` field; every failure yields the empty string. -/
def getUserName (c : Codec) (req : Request) : String :=
  match reqCookie req "session" with
  | none => ""
  | some v =>
    match c.decode v with
    | none => ""
    | some m => mapGet m "name"

/-- `setSession(userName, response)`: encodes the map with the single
`name` field and, when encoding succeeds, sets the `session` cookie with
path `/`; when encoding fails, does nothing. -/
def setSession (c : Codec) (userName : String) (w : HWriter) : HWriter :=
  match c.encode [("name", userName)] with
  | none => w
  | some encoded => addCookie ⟨"session", encoded, "/", 0⟩ w

/-- `clearSession(response)`: sets an empty `session` cookie with
`MaxAge = -1`. -/
def clearSession (w : HWriter) : HWriter :=
  addCookie ⟨"session", "", "/", -1⟩ w

/-- The hardcoded fallback username (`var username = "Ahmad"`). -/
def username : String := "Ahmad"

/-- The hardcoded fallback password (`var password = "Pass123"`). -/
def password : String := "Pass123"

/-- The state of the users collection: its documents, each a
(username, password) pair, and whether connection or query execution
fails. -/
structure StoreState where
  docs : List (String × String)
  connErr : Bool
deriving DecidableEq, Repr

/-- The outcome of `usersCollection.FindOne(filter).Decode(&result)`. -/
inductive QueryResult where
  | found
  | noDocument
  | connFailure
deriving DecidableEq, Repr

/-- `FindOne` with the equality filter on both `username` and `password`:
an error on connection failure, an error when no document matches, and
success otherwise. -/
def findOne (st : StoreState) (u p : String) : QueryResult :=
  if st.connErr then .connFailure
  else if st.docs.contains (u, p) then .found
  else .noDocument

/-- `verifyCredentials(user, pass)`: with no collection handle
(`usersCollection == nil`), exact comparison against the hardcoded pair;
with a handle, `err == nil` from the filtered `FindOne`. -/
def verifyCredentials (store : Option StoreState) (user pass : String) : Bool :=
  match store with
  | none => user == username && pass == password
  | some st => findOne st user pass == .found

/-- `loginHandler`: reads the form values, verifies them; on success sets
the session cookie and targets `/internal`, on failure writes the invalid
login notice; in both cases ends with `http.Redirect(..., 302)`. -/
def loginHandler (c : Codec) (store : Option StoreState) (req : Request) (w : HWriter) : HWriter :=
  let nm := formValue req "name"
  let pw := formValue req "password"
  if verifyCredentials store nm pw then
    redirect req "/internal" 302 (setSession c nm w)
  else
    redirect req "/" 302 (write "<h1>Invalid login</h1><a href=\"/\">Try again</a>" w)

/-- `logoutHandler`: clears the session cookie and redirects to `/`. -/
def logoutHandler (req : Request) (w : HWriter) : HWriter :=
  redirect req "/" 302 (clearSession w)

/-- The part of the `internalPage` template before the `%s` verb. -/
def internalPagePre : String :=
  "\n<h1>Internal</h1>\n<hr>\n<small>You're welcome "

/-- The part of the `internalPage` template after the `%s` verb. -/
def internalPagePost : String :=
  "</small>\n<form method=\"post\" action=\"/logout\">\n    <button type=\"submit\">Logout</button>\n</form>\n"

/-- `fmt.Fprintf(response, internalPage, userName)`: the template with the
username spliced in for `%s`. -/
def internalPage (u : String) : String :=
  internalPagePre ++ (u ++ internalPagePost)

/-- `internalPageHandler`: renders the internal page when `getUserName`
yields a nonempty name, otherwise redirects to `/`. -/
def internalPageHandler (c : Codec) (req : Request) (w : HWriter) : HWriter :=
  let userName := getUserName c req
  if userName != "" then
    write (internalPage userName) w
  else
    redirect req "/" 302 w

/-- Does the char list start with the given run? -/
def matchAt : List Char → List Char → Bool
  | [], _ => true
  | _ :: _, [] => false
  | a :: as, b :: bs => a == b && matchAt as bs

/-- Does the char list contain the given run contiguously? -/
def hasSub (sub : List Char) : List Char → Bool
  | [] => matchAt sub []
  | b :: bs => matchAt sub (b :: bs) || hasSub sub bs

/-- Substring containment on strings. -/
def strHasSub (hay sub : String) : Bool :=
  hasSub sub.data hay.data

theorem matchAt_self_append (s t : List Char) : matchAt s (s ++ t) = true := by
  induction s with
  | nil => rfl
  | cons a as ih => simp [matchAt, ih]

theorem hasSub_of_split (s p t : List Char) : hasSub s (p ++ (s ++ t)) = true := by
  induction p with
  | nil =>
    cases h : s ++ t with
    | nil =>
      rcases List.append_eq_nil.mp h with ⟨hs, _⟩
      simp [hs, hasSub, matchAt]
    | cons b bs =>
      simp only [List.nil_append, h, hasSub]
      rw [← h, matchAt_self_append]
      simp
  | cons a as ih =>
    simp only [List.cons_append, hasSub]
    simp [ih]

theorem string_data_append (a b : String) : (a ++ b).data = a.data ++ b.data := by
  cases a; cases b; rfl

theorem strHasSub_of_split (p u t : String) : strHasSub (p ++ (u ++ t)) u = true := by
  unfold strHasSub
  rw [string_data_append, string_data_append]
  exact hasSub_of_split u.data p.data t.data

theorem hasSub_nil_left (l : List Char) : hasSub [] l = true := by
  cases l <;> simp [hasSub, matchAt]

/-- A concrete codec satisfying the securecookie round-trip contract, used
to instantiate hypotheses on concrete inputs: it encodes exactly the
single-field `name` maps, by projecting the value out. -/
def nameCodec : Codec where
  encode m :=
    match m with
    | [(k, v)] => if k == "name" then some v else none
    | _ => none
  decode s := some [("name", s)]

/-- A codec whose encoding and decoding always fail. -/
def noneCodec : Codec where
  encode _ := none
  decode _ := none

theorem nameCodec_roundTrips : RoundTrips nameCodec := by
  intro m s h
  rcases m with _ | ⟨⟨k, v⟩, _ | ⟨p2, rest⟩⟩
  · simp [nameCodec] at h
  · simp only [nameCodec] at h ⊢
    by_cases hk : k == "name"
    · simp only [hk, if_pos rfl] at h
      injection h with h
      subst h
      have : k = "name" := by simpa [beq_iff_eq] using hk
      subst this
      rfl
    · simp [hk] at h
  · simp [nameCodec] at h

/-- Claim C2: decoding the session cookie produced by `setSession(n)` with
`getUserName`, under the same process key set, yields exactly `n`:
`setSession` sets one `session` cookie holding the encoding of the map
with `name` bound to `n`, and `getUserName` on a request carrying that
cookie returns `n`. -/
theorem session_cookie_roundtrip (c : Codec) (hc : RoundTrips c) (n e : String)
    (he : c.encode [("name", n)] = some e) :
    (setSession c n emptyWriter).pending.cookies = [⟨"session", e, "/", 0⟩] ∧
    getUserName c ⟨"GET", [], [("session", e)]⟩ = n := by
  constructor
  · simp [setSession, he, addCookie, emptyWriter]
  · have hd := hc _ _ he
    simp [getUserName, reqCookie, hd, mapGet]

theorem session_cookie_roundtrip_witness :
    (setSession nameCodec "Ahmad" emptyWriter).pending.cookies =
      [⟨"session", "Ahmad", "/", 0⟩] ∧
    getUserName nameCodec ⟨"GET", [], [("session", "Ahmad")]⟩ = "Ahmad" :=
  session_cookie_roundtrip nameCodec nameCodec_roundTrips "Ahmad" "Ahmad" rfl

/-- Claim C3: `getUserName` totally returns a string; a missing `session`
cookie, an undecodable cookie value, and a decoded map whose `name` field
is absent or empty all collapse to the empty string. -/
theorem getUserName_collapses_failures (c : Codec) (req : Request) :
    (reqCookie req "session" = none → getUserName c req = "") ∧
    (∀ v, reqCookie req "session" = some v → c.decode v = none →
      getUserName c req = "") ∧
    (∀ v m, reqCookie req "session" = some v → c.decode v = some m →
      mapGet m "name" = "" → getUserName c req = "") := by
  refine ⟨?_, ?_, ?_⟩
  · intro h
    simp [getUserName, h]
  · intro v hv hd
    simp [getUserName, hv, hd]
  · intro v m hv hd hm
    simp [getUserName, hv, hd, hm]

theorem getUserName_collapses_failures_witness :
    getUserName nameCodec ⟨"GET", [], []⟩ = "" ∧
    getUserName noneCodec ⟨"GET", [], [("session", "x")]⟩ = "" ∧
    getUserName nameCodec ⟨"GET", [], [("session", "")]⟩ = "" :=
  ⟨(getUserName_collapses_failures nameCodec ⟨"GET", [], []⟩).1 rfl,
   (getUserName_collapses_failures noneCodec ⟨"GET", [], [("session", "x")]⟩).2.1
     "x" rfl rfl,
   (getUserName_collapses_failures nameCodec ⟨"GET", [], [("session", "")]⟩).2.2
     "" [("name", "")] rfl rfl rfl⟩

/-- Claim C4: with a nil collection handle, `verifyCredentials u p` is
true exactly when `u` is "Ahmad" and `p` is "Pass123", by case-sensitive
string equality. -/
theorem verify_fallback_exact (u p : String) :
    verifyCredentials none u p = true ↔ (u = "Ahmad" ∧ p = "Pass123") := by
  simp [verifyCredentials, username, password]

/-- Claim C5: with a collection handle present, `verifyCredentials u p` is
true exactly when the equality-filtered lookup succeeds without error —
no connection failure and a matching document; a connection failure makes
it false regardless of the documents, indistinguishable from "not
found". -/
theorem verify_store_collapses_errors (st : StoreState) (u p : String) :
    (verifyCredentials (some st) u p = true ↔
      (findOne st u p = .found)) ∧
    (verifyCredentials (some st) u p = true ↔
      (st.connErr = false ∧ (u, p) ∈ st.docs)) ∧
    verifyCredentials (some { docs := st.docs, connErr := true }) u p = false := by
  refine ⟨by simp [verifyCredentials], ?_, by simp [verifyCredentials, findOne]⟩
  by_cases h : st.connErr
  · simp [verifyCredentials, findOne, h]
  · by_cases hm : st.docs.contains (u, p)
    · simp [verifyCredentials, findOne, h, hm, List.elem_iff.mp hm]
    · simp only [verifyCredentials, findOne, h, hm, if_false, Bool.false_eq_true,
        if_neg, beq_iff_eq, reduceCtorEq, false_iff, not_and]
      intro _ hmem
      exact absurd (List.elem_iff.mpr hmem) hm

/-- Claim C9: `setSession` is a silent no-op when encoding fails, and sets
exactly the `session` cookie (path `/`, no expiry) when encoding
succeeds, changing nothing else about the response. -/
theorem setSession_silent_on_failure (c : Codec) (n : String) (w : HWriter) :
    (c.encode [("name", n)] = none → setSession c n w = w) ∧
    (∀ e, c.encode [("name", n)] = some e →
      (setSession c n w).pending.cookies =
        w.pending.cookies ++ [⟨"session", e, "/", 0⟩] ∧
      (setSession c n w).pending.location = w.pending.location ∧
      (setSession c n w).sent = w.sent ∧
      (setSession c n w).body = w.body) := by
  constructor
  · intro h
    simp [setSession, h]
  · intro e h
    simp [setSession, h, addCookie]

theorem setSession_silent_on_failure_witness :
    setSession noneCodec "Ahmad" emptyWriter = emptyWriter ∧
    (setSession nameCodec "Ahmad" emptyWriter).pending.cookies =
      [⟨"session", "Ahmad", "/", 0⟩] :=
  ⟨(setSession_silent_on_failure noneCodec "Ahmad" emptyWriter).1 rfl,
   ((setSession_silent_on_failure nameCodec "Ahmad" emptyWriter).2 "Ahmad" rfl).1⟩

theorem strHasSub_of_data_split (hay u : String) (p t : List Char)
    (h : hay.data = p ++ (u.data ++ t)) : strHasSub hay u = true := by
  unfold strHasSub
  rw [h]
  exact hasSub_of_split u.data p t

/-- Claim C1: on a POST /login whose credentials fail verification, the
client observes status 200 (the invalid-login body write commits the
header block before the redirect call runs), the body contains
"Invalid login", and no Location header is sent. -/
theorem login_failure_no_redirect (c : Codec) (store : Option StoreState)
    (req : Request) (hm : req.method = "POST")
    (hv : verifyCredentials store (formValue req "name")
      (formValue req "password") = false) :
    respStatus (loginHandler c store req emptyWriter) = 200 ∧
    strHasSub (respBody (loginHandler c store req emptyWriter))
      "Invalid login" = true ∧
    respLocation (loginHandler c store req emptyWriter) = none := by
  have hrun : loginHandler c store req emptyWriter =
      ⟨⟨some "/", []⟩, some (200, ⟨none, []⟩),
        "" ++ "<h1>Invalid login</h1><a href=\"/\">Try again</a>"⟩ := by
    simp [loginHandler, hv, redirect, write, writeHeader, setLocation,
      emptyWriter, hm]
  rw [hrun]
  refine ⟨rfl, ?_, rfl⟩
  decide

theorem login_failure_no_redirect_witness :
    respStatus (loginHandler nameCodec none
      ⟨"POST", [("name", "wrong"), ("password", "wrong")], []⟩ emptyWriter) = 200 ∧
    strHasSub (respBody (loginHandler nameCodec none
      ⟨"POST", [("name", "wrong"), ("password", "wrong")], []⟩ emptyWriter))
      "Invalid login" = true ∧
    respLocation (loginHandler nameCodec none
      ⟨"POST", [("name", "wrong"), ("password", "wrong")], []⟩ emptyWriter) = none :=
  login_failure_no_redirect nameCodec none
    ⟨"POST", [("name", "wrong"), ("password", "wrong")], []⟩ rfl (by decide)

/-- Claim C6: on a POST /login whose credentials pass verification and
whose name encodes successfully, the client observes status 302, Location
`/internal`, and a `session` cookie with path `/` holding the encoding of
the submitted name. -/
theorem login_success_redirects (c : Codec) (store : Option StoreState)
    (req : Request) (e : String) (hm : req.method = "POST")
    (hv : verifyCredentials store (formValue req "name")
      (formValue req "password") = true)
    (he : c.encode [("name", formValue req "name")] = some e) :
    respStatus (loginHandler c store req emptyWriter) = 302 ∧
    respLocation (loginHandler c store req emptyWriter) = some "/internal" ∧
    sentCookies (loginHandler c store req emptyWriter) =
      [⟨"session", e, "/", 0⟩] := by
  have hrun : loginHandler c store req emptyWriter =
      ⟨⟨some "/internal", [⟨"session", e, "/", 0⟩]⟩,
        some (302, ⟨some "/internal", [⟨"session", e, "/", 0⟩]⟩), ""⟩ := by
    simp [loginHandler, hv, setSession, he, addCookie, redirect, setLocation,
      writeHeader, emptyWriter, hm]
  rw [hrun]
  exact ⟨rfl, rfl, rfl⟩

theorem login_success_redirects_witness :
    respStatus (loginHandler nameCodec none
      ⟨"POST", [("name", "Ahmad"), ("password", "Pass123")], []⟩ emptyWriter) = 302 ∧
    respLocation (loginHandler nameCodec none
      ⟨"POST", [("name", "Ahmad"), ("password", "Pass123")], []⟩ emptyWriter) =
      some "/internal" ∧
    sentCookies (loginHandler nameCodec none
      ⟨"POST", [("name", "Ahmad"), ("password", "Pass123")], []⟩ emptyWriter) =
      [⟨"session", "Ahmad", "/", 0⟩] :=
  login_success_redirects nameCodec none
    ⟨"POST", [("name", "Ahmad"), ("password", "Pass123")], []⟩ "Ahmad"
    rfl (by decide) (by decide)

/-- Claim C7: on GET /internal, an empty `getUserName` yields a 302 to
`/`, and a nonempty one yields a 200 whose body contains the decoded
username (the substring claim holds vacuously for the empty name). -/
theorem internal_gate (c : Codec) (req : Request) :
    respStatus (internalPageHandler c req emptyWriter) =
      (if getUserName c req = "" then 302 else 200) ∧
    respLocation (internalPageHandler c req emptyWriter) =
      (if getUserName c req = "" then some "/" else none) ∧
    strHasSub (respBody (internalPageHandler c req emptyWriter))
      (getUserName c req) = true := by
  by_cases h : getUserName c req = ""
  · cases hg : req.method == "GET" <;>
      simp [internalPageHandler, h, redirect, hg, setLocation, writeHeader,
        write, emptyWriter, respStatus, respLocation, respBody, finalize,
        strHasSub, hasSub_nil_left]
  · have hrun : internalPageHandler c req emptyWriter =
        ⟨⟨none, []⟩, some (200, ⟨none, []⟩),
          "" ++ internalPage (getUserName c req)⟩ := by
      simp [internalPageHandler, h, write, writeHeader, emptyWriter]
    rw [hrun]
    refine ⟨by simp [respStatus, finalize, h], by simp [respLocation, finalize, h], ?_⟩
    refine strHasSub_of_data_split _ _
      ("".data ++ internalPagePre.data) internalPagePost.data ?_
    simp [respBody, internalPage, string_data_append]

/-- Claim C8: POST /logout always yields a 302 to `/` with a single
`session` cookie with empty value, path `/`, and MaxAge -1. -/
theorem logout_clears_session (req : Request) :
    respStatus (logoutHandler req emptyWriter) = 302 ∧
    respLocation (logoutHandler req emptyWriter) = some "/" ∧
    sentCookies (logoutHandler req emptyWriter) =
      [⟨"session", "", "/", -1⟩] := by
  cases hg : req.method == "GET" <;>
    simp [logoutHandler, clearSession, addCookie, redirect, hg, setLocation,
      writeHeader, write, emptyWriter, respStatus, respLocation, sentCookies,
      finalize]

/-- Claim C10: when the store verifies an empty username, the login
response is a full success — 302 to /internal with a valid session cookie
encoding the empty name — yet any GET /internal carrying that cookie
decodes to the empty string and is redirected to `/` exactly as if no
session existed: the authenticated state is unreachable for the empty
username. -/
theorem empty_username_lockout (c : Codec) (st : StoreState) (p e : String)
    (hc : RoundTrips c)
    (hv : verifyCredentials (some st) "" p = true)
    (he : c.encode [("name", "")] = some e) :
    respStatus (loginHandler c (some st)
      ⟨"POST", [("name", ""), ("password", p)], []⟩ emptyWriter) = 302 ∧
    respLocation (loginHandler c (some st)
      ⟨"POST", [("name", ""), ("password", p)], []⟩ emptyWriter) =
      some "/internal" ∧
    sentCookies (loginHandler c (some st)
      ⟨"POST", [("name", ""), ("password", p)], []⟩ emptyWriter) =
      [⟨"session", e, "/", 0⟩] ∧
    getUserName c ⟨"GET", [], [("session", e)]⟩ = "" ∧
    respStatus (internalPageHandler c
      ⟨"GET", [], [("session", e)]⟩ emptyWriter) = 302 ∧
    respLocation (internalPageHandler c
      ⟨"GET", [], [("session", e)]⟩ emptyWriter) = some "/" := by
  have hname : formValue ⟨"POST", [("name", ""), ("password", p)], []⟩ "name" = "" := by
    simp [formValue, mapGet]
  have hpass : formValue ⟨"POST", [("name", ""), ("password", p)], []⟩ "password" = p := by
    simp [formValue, mapGet]
  have hgu : getUserName c ⟨"GET", [], [("session", e)]⟩ = "" := by
    have hd := hc _ _ he
    simp [getUserName, reqCookie, hd, mapGet]
  have hlogin : loginHandler c (some st)
      ⟨"POST", [("name", ""), ("password", p)], []⟩ emptyWriter =
      ⟨⟨some "/internal", [⟨"session", e, "/", 0⟩]⟩,
        some (302, ⟨some "/internal", [⟨"session", e, "/", 0⟩]⟩), ""⟩ := by
    simp only [loginHandler, hname, hpass, hv, if_pos rfl]
    simp [setSession, he, addCookie, redirect, setLocation, writeHeader,
      emptyWriter]
  have hinternal : ∀ x, internalPageHandler c
      ⟨"GET", [], [("session", e)]⟩ emptyWriter = x →
      respStatus x = 302 ∧ respLocation x = some "/" := by
    intro x hx
    rw [← hx]
    simp [internalPageHandler, hgu, redirect, setLocation, writeHeader, write,
      emptyWriter, respStatus, respLocation, finalize]
  refine ⟨?_, ?_, ?_, hgu, (hinternal _ rfl).1, (hinternal _ rfl).2⟩ <;>
    rw [hlogin] <;> rfl

theorem empty_username_lockout_witness :
    respStatus (loginHandler nameCodec (some ⟨[("", "pw")], false⟩)
      ⟨"POST", [("name", ""), ("password", "pw")], []⟩ emptyWriter) = 302 ∧
    respLocation (loginHandler nameCodec (some ⟨[("", "pw")], false⟩)
      ⟨"POST", [("name", ""), ("password", "pw")], []⟩ emptyWriter) =
      some "/internal" ∧
    sentCookies (loginHandler nameCodec (some ⟨[("", "pw")], false⟩)
      ⟨"POST", [("name", ""), ("password", "pw")], []⟩ emptyWriter) =
      [⟨"session", "", "/", 0⟩] ∧
    getUserName nameCodec ⟨"GET", [], [("session", "")]⟩ = "" ∧
    respStatus (internalPageHandler nameCodec
      ⟨"GET", [], [("session", "")]⟩ emptyWriter) = 302 ∧
    respLocation (internalPageHandler nameCodec
      ⟨"GET", [], [("session", "")]⟩ emptyWriter) = some "/" :=
  empty_username_lockout nameCodec ⟨[("", "pw")], false⟩ "pw" ""
    nameCodec_roundTrips (by decide) (by decide)
